import Mathlib

/-! GC statistics stubs (`src/gc_stubs.c`)

A shallow embedding of the eleven `core_kernel_gc_*` primitives and of the three
static helpers they call, followed by the properties of the statistics interface.

Machine integers are mathematical integers together with explicit range checks:
`intnat` is the signed native word, `uintnat` the unsigned one.  Signed arithmetic
is checked (an out-of-range result is undefined behaviour in C and is `none` here),
unsigned arithmetic wraps.  A primitive runs in the context of the runtime's GC
counters, which it receives and hands back.
-/

namespace GcStubs

/-! ## Machine words -/

/-- Native word sizes the OCaml runtime is built for: the width of `intnat`. -/
inductive WordSize where
  | w32
  | w64
  deriving DecidableEq

/-- Number of bits of `intnat` and `uintnat`. -/
def WordSize.bits : WordSize → Nat
  | .w32 => 32
  | .w64 => 64

/-- An OCaml `value`: one machine word, read as a signed integer. -/
abbrev value := Int

/-- Smallest `intnat`. -/
def intnat_min (ws : WordSize) : Int := -((2 ^ (ws.bits - 1) : Nat) : Int)

/-- Largest `intnat`. -/
def intnat_max (ws : WordSize) : Int := ((2 ^ (ws.bits - 1) : Nat) : Int) - 1

/-- The C cast `(uintnat) x`: reduction modulo `2 ^ bits`. -/
def to_uintnat (ws : WordSize) (x : Int) : Int := x % ((2 ^ ws.bits : Nat) : Int)

/-- The C cast `(intnat) x`: the representative of `x` modulo `2 ^ bits` in the signed range. -/
def to_intnat (ws : WordSize) (x : Int) : Int :=
  (x + ((2 ^ (ws.bits - 1) : Nat) : Int)) % ((2 ^ ws.bits : Nat) : Int)
    - ((2 ^ (ws.bits - 1) : Nat) : Int)

/-- Signed `intnat` addition `a + b`; `none` when the sum leaves the range of `intnat`. -/
def intnat_add (ws : WordSize) (a b : Int) : Option Int :=
  if intnat_min ws ≤ a + b ∧ a + b ≤ intnat_max ws then some (a + b) else none

/-- Signed `intnat` subtraction `a - b`; `none` when the difference leaves the range of `intnat`. -/
def intnat_sub (ws : WordSize) (a b : Int) : Option Int :=
  if intnat_min ws ≤ a - b ∧ a - b ≤ intnat_max ws then some (a - b) else none

/-- Modelled from the spec: the macro `Val_long` of the runtime header `caml/mlvalues.h`,
which `gc_stubs.c` uses and which is not part of the sources; the encoding is
`Val_long(n) = 2*n + 1` as a machine word, that is
`((intnat) (((uintnat)(x) << 1)) + 1)`: an unsigned shift, a cast, a signed `+ 1`. -/
def Val_long (ws : WordSize) (x : Int) : Option value :=
  intnat_add ws (to_intnat ws (to_uintnat ws (to_uintnat ws x * 2))) 1

/-- Modelled from the spec: the macro `Long_val` of `caml/mlvalues.h`, the decoding
`((x) >> 1)` of a tagged integer, an arithmetic shift right by one bit. -/
def Long_val (v : value) : Int := Int.fdiv v 2

/-- Modelled from the spec: the macro `Is_long` of `caml/mlvalues.h`, `(((x) & 1) != 0)`:
the word is an immediate integer and not a pointer. -/
def Is_long (v : value) : Bool := v % 2 != 0

/-! ## The runtime context -/

/-- Modelled from the spec: the GC counters owned by the runtime (section 3, `GCCounters`);
the runtime headers that declare them are not part of the sources. -/
structure GCCounters where
  minor_words : Nat
  major_words : Nat
  promoted_words : Nat
  minor_collections : Nat
  major_collections : Nat
  heap_words : Nat
  heap_chunks : Nat
  compactions : Nat
  top_heap_words : Nat
  deriving DecidableEq

/-- Modelled from the spec: the counters of a freshly started process. -/
def GCCounters.fresh : GCCounters :=
  { minor_words := 0, major_words := 0, promoted_words := 0, minor_collections := 0,
    major_collections := 0, heap_words := 0, heap_chunks := 0, compactions := 0,
    top_heap_words := 0 }

/-- Modelled from the spec: an allocation burst of `n` words in the young generation, as the
runtime accounts for it. -/
def allocation_burst (n : Nat) (rt : GCCounters) : GCCounters :=
  { rt with minor_words := rt.minor_words + n }

/-- Modelled from the spec: a forced full collection that gives `freed` words back, as the
runtime accounts for it: one more major collection, a heap that may shrink, a high-water
mark that does not. -/
def full_major (freed : Nat) (rt : GCCounters) : GCCounters :=
  { rt with
    major_collections := rt.major_collections + 1
    heap_words := rt.heap_words - freed
    top_heap_words := max rt.top_heap_words (rt.heap_words - freed) }

/-- A C function of the stub file: it receives the runtime context, may fail (undefined
behaviour), and otherwise yields its result together with the context it leaves behind. -/
abbrev Prim (α : Type) := StateT GCCounters Option α

/-! ## The functions of `gc_stubs.c` -/

/-- The static helper `minor_words`: `return (intnat) (0);`. -/
def minor_words (ws : WordSize) : Prim Int := pure (to_intnat ws 0)

/-- The static helper `promoted_words`: `return ((intnat) 0);`. -/
def promoted_words (ws : WordSize) : Prim Int := pure (to_intnat ws 0)

/-- The static helper `major_words`: `return (intnat) (0);`. -/
def major_words (ws : WordSize) : Prim Int := pure (to_intnat ws 0)

/-- The primitive `core_kernel_gc_minor_words`: `return Val_long(minor_words());`. -/
def core_kernel_gc_minor_words (ws : WordSize) (_unit : value) : Prim value := do
  let m ← minor_words ws
  Val_long ws m

/-- The primitive `core_kernel_gc_major_words`: `return Val_long(major_words());`. -/
def core_kernel_gc_major_words (ws : WordSize) (_unit : value) : Prim value := do
  let j ← major_words ws
  Val_long ws j

/-- The primitive `core_kernel_gc_promoted_words`: `return Val_long(promoted_words());`. -/
def core_kernel_gc_promoted_words (ws : WordSize) (_unit : value) : Prim value := do
  let p ← promoted_words ws
  Val_long ws p

/-- The primitive `core_kernel_gc_minor_collections`: `return Val_long(0);`. -/
def core_kernel_gc_minor_collections (ws : WordSize) (_unit : value) : Prim value :=
  Val_long ws 0

/-- The primitive `core_kernel_gc_major_collections`: `return Val_long(0);`. -/
def core_kernel_gc_major_collections (ws : WordSize) (_unit : value) : Prim value :=
  Val_long ws 0

/-- The primitive `core_kernel_gc_heap_words`: `return Val_long(0);`. -/
def core_kernel_gc_heap_words (ws : WordSize) (_unit : value) : Prim value :=
  Val_long ws 0

/-- The primitive `core_kernel_gc_heap_chunks`: `return Val_long(0);`. -/
def core_kernel_gc_heap_chunks (ws : WordSize) (_unit : value) : Prim value :=
  Val_long ws 0

/-- The primitive `core_kernel_gc_compactions`: `return Val_long(0);`. -/
def core_kernel_gc_compactions (ws : WordSize) (_unit : value) : Prim value :=
  Val_long ws 0

/-- The primitive `core_kernel_gc_top_heap_words`: `return Val_long(0);`. -/
def core_kernel_gc_top_heap_words (ws : WordSize) (_unit : value) : Prim value :=
  Val_long ws 0

/-- The primitive `core_kernel_gc_major_plus_minor_words`:
`return Val_long(minor_words() + major_words());`. -/
def core_kernel_gc_major_plus_minor_words (ws : WordSize) (_unit : value) : Prim value := do
  let m ← minor_words ws
  let j ← major_words ws
  let s ← intnat_add ws m j
  Val_long ws s

/-- The primitive `core_kernel_gc_allocated_words`:
`return Val_long(minor_words() + major_words() - promoted_words());`. -/
def core_kernel_gc_allocated_words (ws : WordSize) (_unit : value) : Prim value := do
  let m ← minor_words ws
  let j ← major_words ws
  let s ← intnat_add ws m j
  let p ← promoted_words ws
  let d ← intnat_sub ws s p
  Val_long ws d

/-! ## The accessors as one family -/

/-- The eleven accessors exported by the file. -/
inductive Accessor where
  | minor_words
  | major_words
  | promoted_words
  | minor_collections
  | major_collections
  | heap_words
  | heap_chunks
  | compactions
  | top_heap_words
  | major_plus_minor_words
  | allocated_words
  deriving DecidableEq

/-- The primitive behind each accessor. -/
def call (ws : WordSize) : Accessor → value → Prim value
  | .minor_words => core_kernel_gc_minor_words ws
  | .major_words => core_kernel_gc_major_words ws
  | .promoted_words => core_kernel_gc_promoted_words ws
  | .minor_collections => core_kernel_gc_minor_collections ws
  | .major_collections => core_kernel_gc_major_collections ws
  | .heap_words => core_kernel_gc_heap_words ws
  | .heap_chunks => core_kernel_gc_heap_chunks ws
  | .compactions => core_kernel_gc_compactions ws
  | .top_heap_words => core_kernel_gc_top_heap_words ws
  | .major_plus_minor_words => core_kernel_gc_major_plus_minor_words ws
  | .allocated_words => core_kernel_gc_allocated_words ws

/-- The integer an accessor reports when called with argument `u` in runtime context `rt`:
its result decoded with `Long_val`. -/
def reported (ws : WordSize) (a : Accessor) (u : value) (rt : GCCounters) : Option Int :=
  (call ws a u rt).map fun r => Long_val r.1

/-- The values reported by a finite sequence of calls of one accessor, each call given by its
argument and the runtime context it is made in. -/
def reported_seq (ws : WordSize) (a : Accessor) (calls : List (value × GCCounters)) :
    List (Option Int) :=
  calls.map fun c => reported ws a c.1 c.2

/-! ## Basic facts -/

/-- Every primitive, in every runtime context, succeeds with the word 1 and hands the context
back as it received it. -/
theorem call_eq (ws : WordSize) (a : Accessor) (u : value) (rt : GCCounters) :
    call ws a u rt = some (1, rt) := by
  cases ws <;> cases a <;> rfl

/-- Every accessor reports 0. -/
theorem reported_eq (ws : WordSize) (a : Accessor) (u : value) (rt : GCCounters) :
    reported ws a u rt = some 0 := by
  unfold reported
  rw [call_eq]
  rfl

/-- A sequence of calls reports 0 at every position. -/
theorem reported_seq_eq (ws : WordSize) (a : Accessor) (calls : List (value × GCCounters)) :
    reported_seq ws a calls = (calls.map fun _ => (0 : Int)).map some := by
  unfold reported_seq
  rw [List.map_map]
  exact List.map_congr_left fun c _ => reported_eq ws a c.1 c.2

/-- The three static helpers return 0 and leave the runtime context alone. -/
theorem helpers_eq (ws : WordSize) (rt : GCCounters) :
    minor_words ws rt = some (0, rt) ∧ major_words ws rt = some (0, rt)
      ∧ promoted_words ws rt = some (0, rt) := by
  cases ws <;> exact ⟨rfl, rfl, rfl⟩

/-! ## The statistics interface -/

/-- C1: every one of the eleven accessors, at every word size, for every argument value and in
every runtime context, reports the integer 0 (its result decoded with `Long_val`). -/
theorem C1_every_accessor_reports_zero (ws : WordSize) (a : Accessor) (u : value)
    (rt : GCCounters) : reported ws a u rt = some 0 :=
  reported_eq ws a u rt

/-- C2: the integer reported by `core_kernel_gc_major_plus_minor_words` is the sum of the
integers reported by `core_kernel_gc_minor_words` and `core_kernel_gc_major_words`, whatever
the three arguments, and the `intnat` addition `minor_words() + major_words()` that computes it
stays in range: the checked addition of the two helper results succeeds with their sum. -/
theorem C2_major_plus_minor_is_sum (ws : WordSize) (u1 u2 u3 : value) (rt : GCCounters) :
    ∃ m j t mw jw : Int,
      reported ws .minor_words u1 rt = some m
        ∧ reported ws .major_words u2 rt = some j
        ∧ reported ws .major_plus_minor_words u3 rt = some t
        ∧ t = m + j
        ∧ minor_words ws rt = some (mw, rt)
        ∧ major_words ws rt = some (jw, rt)
        ∧ intnat_add ws mw jw = some (mw + jw)
        ∧ intnat_min ws ≤ mw + jw ∧ mw + jw ≤ intnat_max ws := by
  refine ⟨0, 0, 0, 0, 0, reported_eq .., reported_eq .., reported_eq .., rfl,
    (helpers_eq ws rt).1, (helpers_eq ws rt).2.1, ?_, ?_, ?_⟩ <;> cases ws <;> decide

/-- C3: the integer reported by `core_kernel_gc_allocated_words` is the integer reported by
`core_kernel_gc_minor_words` plus the one reported by `core_kernel_gc_major_words` minus the
one reported by `core_kernel_gc_promoted_words`, whatever the four arguments, and both steps
of the `intnat` computation `minor_words() + major_words() - promoted_words()` stay in range:
the checked addition and the checked subtraction succeed with the exact results. -/
theorem C3_allocated_is_sum_minus_promoted (ws : WordSize) (u1 u2 u3 u4 : value)
    (rt : GCCounters) :
    ∃ m j p t mw jw pw : Int,
      reported ws .minor_words u1 rt = some m
        ∧ reported ws .major_words u2 rt = some j
        ∧ reported ws .promoted_words u3 rt = some p
        ∧ reported ws .allocated_words u4 rt = some t
        ∧ t = m + j - p
        ∧ minor_words ws rt = some (mw, rt)
        ∧ major_words ws rt = some (jw, rt)
        ∧ promoted_words ws rt = some (pw, rt)
        ∧ intnat_add ws mw jw = some (mw + jw)
        ∧ intnat_sub ws (mw + jw) pw = some (mw + jw - pw) := by
  refine ⟨0, 0, 0, 0, 0, 0, 0, reported_eq .., reported_eq .., reported_eq .., reported_eq ..,
    rfl, (helpers_eq ws rt).1, (helpers_eq ws rt).2.1, (helpers_eq ws rt).2.2, ?_, ?_⟩
    <;> cases ws <;> decide

/-- C4: for every accessor, every argument value and every runtime context the reported integer
is non-negative; in particular the one reported by `core_kernel_gc_allocated_words`, which
subtracts `promoted_words()` from `minor_words() + major_words()`, is never negative. -/
theorem C4_reported_nonneg (ws : WordSize) (a : Accessor) (u : value) (rt : GCCounters) :
    (∃ n : Int, reported ws a u rt = some n ∧ 0 ≤ n)
      ∧ ∃ t : Int, reported ws .allocated_words u rt = some t ∧ 0 ≤ t :=
  ⟨⟨0, reported_eq .., le_refl 0⟩, ⟨0, reported_eq .., le_refl 0⟩⟩

/-- C5: no accessor can fail: at every word size, for every argument value and in every runtime
context the call returns a value (the success case), never the failure case. -/
theorem C5_accessor_never_fails (ws : WordSize) (a : Accessor) (u : value) (rt : GCCounters) :
    (call ws a u rt).isSome = true ∧ ∃ v rt1, call ws a u rt = some (v, rt1) := by
  rw [call_eq]
  exact ⟨rfl, 1, rt, rfl⟩

/-- C6: for every accessor and every finite sequence of calls to it (each with any argument, in
any runtime context), every call reports a value, and the sequence of reported values is
non-decreasing: a later call never reports less than an earlier one; every call reports 0. -/
theorem C6_reported_sequence_nondecreasing (ws : WordSize) (a : Accessor)
    (calls : List (value × GCCounters)) :
    ∃ vs : List Int, reported_seq ws a calls = vs.map some
      ∧ vs.Pairwise (fun earlier later => earlier ≤ later)
      ∧ vs = List.replicate calls.length 0 := by
  refine ⟨calls.map fun _ => (0 : Int), reported_seq_eq ws a calls, ?_, ?_⟩
  · rw [List.pairwise_map]
    exact List.pairwise_of_forall fun _ _ => le_refl 0
  · induction calls with
    | nil => rfl
    | cons c cs ih => simp only [List.map_cons, List.length_cons, List.replicate_succ, ih]

/-- C7: every accessor ignores its argument and is purely observational: on any two arguments
it gives the same outcome in the same runtime context, its result does not depend on the
runtime context it runs in, and it hands the runtime context back unchanged. -/
theorem C7_argument_ignored_and_observational (ws : WordSize) (a : Accessor) (u1 u2 : value)
    (rt1 rt2 : GCCounters) :
    call ws a u1 rt1 = call ws a u2 rt1
      ∧ (call ws a u1 rt1).map Prod.fst = (call ws a u2 rt2).map Prod.fst
      ∧ (call ws a u1 rt1).map Prod.snd = some rt1 := by
  refine ⟨?_, ?_, ?_⟩ <;> simp only [call_eq] <;> rfl

/-- C8, as stated, fails: on a 64-bit runtime, starting from a fresh process, after an allocation
burst of one million words `core_kernel_gc_minor_words` reports no strictly greater value than it
reported before the burst. -/
theorem C8_minor_words_not_increased_by_burst :
    ¬ ∃ before later : Int,
        reported .w64 .minor_words 1 GCCounters.fresh = some before
          ∧ reported .w64 .minor_words 1 (allocation_burst 1000000 GCCounters.fresh) = some later
          ∧ before < later := by
  rintro ⟨before, later, hb, hl, hlt⟩
  rw [reported_eq] at hb hl
  cases hb
  cases hl
  exact lt_irrefl 0 hlt

/-- C8, amended: across an allocation burst of any size, from any runtime context and whatever the
arguments, the value reported by `core_kernel_gc_minor_words` is unchanged (0 before and 0 after),
and the value reported by `core_kernel_gc_allocated_words` changes by that same amount, zero. -/
theorem C8_burst_leaves_reports_unchanged (ws : WordSize) (n : Nat) (rt : GCCounters)
    (u1 u2 u3 u4 : value) :
    ∃ m0 m1 a0 a1 : Int,
      reported ws .minor_words u1 rt = some m0
        ∧ reported ws .minor_words u2 (allocation_burst n rt) = some m1
        ∧ reported ws .allocated_words u3 rt = some a0
        ∧ reported ws .allocated_words u4 (allocation_burst n rt) = some a1
        ∧ m0 = 0 ∧ m1 = m0 ∧ a1 - a0 = m1 - m0 :=
  ⟨0, 0, 0, 0, reported_eq .., reported_eq .., reported_eq .., reported_eq .., rfl, rfl, rfl⟩

/-- C9, as stated, fails: on a 64-bit runtime, starting from a fresh process, the value
`core_kernel_gc_major_collections` reports right after a forced full collection is not the value
it reported right before plus 1. -/
theorem C9_major_collections_not_incremented :
    ¬ ∃ before later : Int,
        reported .w64 .major_collections 1 GCCounters.fresh = some before
          ∧ reported .w64 .major_collections 1 (full_major 0 GCCounters.fresh) = some later
          ∧ later = before + 1 := by
  rintro ⟨before, later, hb, hl, heq⟩
  rw [reported_eq] at hb hl
  cases hb
  cases hl
  exact absurd heq (by decide)

/-- C9, amended: across a forced full collection, from any runtime context and whatever the
arguments, the value reported by `core_kernel_gc_major_collections` is unchanged (0 before and 0
after), and the value reported by `core_kernel_gc_top_heap_words` does not decrease. -/
theorem C9_full_major_leaves_reports_unchanged (ws : WordSize) (freed : Nat) (rt : GCCounters)
    (u1 u2 u3 u4 : value) :
    ∃ c0 c1 t0 t1 : Int,
      reported ws .major_collections u1 rt = some c0
        ∧ reported ws .major_collections u2 (full_major freed rt) = some c1
        ∧ reported ws .top_heap_words u3 rt = some t0
        ∧ reported ws .top_heap_words u4 (full_major freed rt) = some t1
        ∧ c0 = 0 ∧ c1 = c0 ∧ t0 ≤ t1 :=
  ⟨0, 0, 0, 0, reported_eq .., reported_eq .., reported_eq .., reported_eq .., rfl, rfl,
    le_refl 0⟩

/-- C10: with `Val_long(n) = 2*n + 1` on machine words, every accessor returns, for every argument
value, the machine word 1, an immediate tagged integer (low bit set) that `Long_val` decodes to 0;
and the two derived accessors tag once, after their arithmetic: their result is `Val_long` of the
sum (and difference) of the untagged helper results, which for
`core_kernel_gc_major_plus_minor_words` differs from the sum of the two tagged words. -/
theorem C10_result_is_tagged_zero (ws : WordSize) (a : Accessor) (u : value) (rt : GCCounters) :
    (∃ v : value, (call ws a u rt).map Prod.fst = some v
        ∧ v = 1 ∧ Is_long v = true ∧ v % 2 = 1 ∧ Long_val v = 0)
      ∧ ∃ (m j p : Int) (vm vj vs va : value),
          minor_words ws rt = some (m, rt)
            ∧ major_words ws rt = some (j, rt)
            ∧ promoted_words ws rt = some (p, rt)
            ∧ core_kernel_gc_minor_words ws u rt = some (vm, rt)
            ∧ core_kernel_gc_major_words ws u rt = some (vj, rt)
            ∧ core_kernel_gc_major_plus_minor_words ws u rt = some (vs, rt)
            ∧ core_kernel_gc_allocated_words ws u rt = some (va, rt)
            ∧ Val_long ws (m + j) = some vs
            ∧ Val_long ws (m + j - p) = some va
            ∧ vs ≠ vm + vj := by
  refine ⟨⟨1, ?_, rfl, rfl, rfl, rfl⟩, 0, 0, 0, 1, 1, 1, 1, (helpers_eq ws rt).1,
    (helpers_eq ws rt).2.1, (helpers_eq ws rt).2.2, call_eq ws .minor_words u rt,
    call_eq ws .major_words u rt, call_eq ws .major_plus_minor_words u rt,
    call_eq ws .allocated_words u rt, ?_, ?_, by decide⟩
  · rw [call_eq]
    rfl
  · cases ws <;> rfl
  · cases ws <;> rfl

end GcStubs
